import Mathlib

/-!
Verification of the multi-product CVP (Cost-Volume-Profit) analysis engine.

The source is a single script (`CVPsite.py`).  Its calculation engine is
embedded here as pure functions over the rationals `ℚ` (the spec models all
quantities as reals; the script's floats are idealized as exact arithmetic):

* `aggregate` embeds lines 41-54: filtering of the active products
  (`df_active = df[df["Quantity Sold"] > 0]`), the derived per-product
  columns (lines 44-46) and the pooled sums (lines 51-54).
* `computeMetrics` embeds lines 56-65: the `total_quantity > 0 and
  total_revenue > 0` guard and the metric formulas, with the IEEE
  positive-infinity sentinels of lines 60, 61 and 65 represented by the
  extended-value type `ExtQ`.
* `maxUnits`, `chartStep`, `chartUnits`, `costLine`, `revenueLine`,
  `chartSeries` and `breakEvenMarker` embed the chart geometry of lines
  87-91 and 108 (`int(...)` truncation, `range(0, max_units + 1, step)`,
  and the two blended-rate lines).

A `Checked` variant of the pipeline replaces every division of the script
by a guarded division returning `Option`, to express that no division by
zero is ever evaluated.
-/

namespace CVP

/-- A per-product input record (one product expander of the input form,
lines 26-37 of the script). -/
structure ProductRecord where
  name : String
  sellingPrice : ℚ
  variableCost : ℚ
  quantitySold : ℚ
deriving Repr, DecidableEq

/-- A row of the active-product summary table: the input columns plus the
derived columns of lines 44-46. -/
structure ProductSummary where
  name : String
  sellingPrice : ℚ
  variableCost : ℚ
  quantitySold : ℚ
  totalRevenue : ℚ
  totalVariableCost : ℚ
  contributionMargin : ℚ
deriving Repr, DecidableEq

/-- Lines 44-46: `Total Revenue = Selling Price * Quantity Sold`,
`Total Variable Cost = Variable Cost * Quantity Sold`,
`Contribution Margin = Total Revenue - Total Variable Cost`. -/
def mkSummary (p : ProductRecord) : ProductSummary :=
  let totalRevenue := p.sellingPrice * p.quantitySold
  let totalVariableCost := p.variableCost * p.quantitySold
  { name := p.name
    sellingPrice := p.sellingPrice
    variableCost := p.variableCost
    quantitySold := p.quantitySold
    totalRevenue := totalRevenue
    totalVariableCost := totalVariableCost
    contributionMargin := totalRevenue - totalVariableCost }

/-- The pooled totals of lines 51-54. -/
structure PooledTotals where
  totalRevenue : ℚ
  totalVariableCost : ℚ
  totalContributionMargin : ℚ
  totalQuantity : ℚ
deriving Repr, DecidableEq

/-- Line 41: `df_active = df[df["Quantity Sold"] > 0]`. -/
def activeProducts (products : List ProductRecord) : List ProductRecord :=
  products.filter (fun p => decide (0 < p.quantitySold))

/-- Lines 41-54: filter the active products, derive the summary columns and
sum the pooled totals.  (On an empty active set the pandas column sums are
all `0`.) -/
def aggregate (products : List ProductRecord) : List ProductSummary × PooledTotals :=
  let summaries := (activeProducts products).map mkSummary
  (summaries,
   { totalRevenue := (summaries.map (fun s => s.totalRevenue)).sum
     totalVariableCost := (summaries.map (fun s => s.totalVariableCost)).sum
     totalContributionMargin := (summaries.map (fun s => s.contributionMargin)).sum
     totalQuantity := (summaries.map (fun s => s.quantitySold)).sum })

/-- A rational extended with the IEEE special values, used for the
`float('inf')` sentinels of lines 60, 61, 65 and the arithmetic that
lines 62-63 and 108 perform on them. -/
inductive ExtQ where
  | fin (q : ℚ)
  | posInf
  | negInf
  | nan
deriving Repr, DecidableEq

/-- IEEE negation on extended values. -/
def ExtQ.neg : ExtQ → ExtQ
  | .fin q => .fin (-q)
  | .posInf => .negInf
  | .negInf => .posInf
  | .nan => .nan

/-- IEEE addition on extended values. -/
def ExtQ.add : ExtQ → ExtQ → ExtQ
  | .nan, _ => .nan
  | _, .nan => .nan
  | .fin a, .fin b => .fin (a + b)
  | .fin _, .posInf => .posInf
  | .fin _, .negInf => .negInf
  | .posInf, .fin _ => .posInf
  | .negInf, .fin _ => .negInf
  | .posInf, .posInf => .posInf
  | .negInf, .negInf => .negInf
  | .posInf, .negInf => .nan
  | .negInf, .posInf => .nan

/-- IEEE subtraction on extended values. -/
def ExtQ.sub (a b : ExtQ) : ExtQ := a.add b.neg

/-- IEEE multiplication on extended values (`0 * inf = nan`). -/
def ExtQ.mul : ExtQ → ExtQ → ExtQ
  | .nan, _ => .nan
  | _, .nan => .nan
  | .fin a, .fin b => .fin (a * b)
  | .fin a, .posInf => if 0 < a then .posInf else if a < 0 then .negInf else .nan
  | .fin a, .negInf => if 0 < a then .negInf else if a < 0 then .posInf else .nan
  | .posInf, .fin b => if 0 < b then .posInf else if b < 0 then .negInf else .nan
  | .negInf, .fin b => if 0 < b then .negInf else if b < 0 then .posInf else .nan
  | .posInf, .posInf => .posInf
  | .posInf, .negInf => .negInf
  | .negInf, .posInf => .negInf
  | .negInf, .negInf => .posInf

/-- The metrics record of lines 57-65. -/
structure CVPMetrics where
  cmPerUnit : ℚ
  cmRatio : ℚ
  vcRatio : ℚ
  breakEvenUnits : ExtQ
  breakEvenDollars : ExtQ
  mosUnits : ExtQ
  mosDollars : ExtQ
  netOperatingIncome : ℚ
  dol : ExtQ
deriving Repr, DecidableEq

/-- Lines 56-65.  `none` is the insufficient-data outcome of the `else`
branch (line 113-114); `some` carries the computed metrics.  The three
conditional expressions of lines 60, 61 and 65 produce the
positive-infinity sentinel when their denominator is zero. -/
def computeMetrics (totals : PooledTotals) (fixedCost : ℚ) : Option CVPMetrics :=
  if 0 < totals.totalQuantity ∧ 0 < totals.totalRevenue then
    let cmPerUnit := totals.totalContributionMargin / totals.totalQuantity
    let cmRatio := totals.totalContributionMargin / totals.totalRevenue
    let vcRatio := totals.totalVariableCost / totals.totalRevenue
    let breakEvenUnits := if cmPerUnit ≠ 0 then ExtQ.fin (fixedCost / cmPerUnit) else ExtQ.posInf
    let breakEvenDollars := if cmRatio ≠ 0 then ExtQ.fin (fixedCost / cmRatio) else ExtQ.posInf
    let mosUnits := (ExtQ.fin totals.totalQuantity).sub breakEvenUnits
    let mosDollars := (ExtQ.fin totals.totalRevenue).sub breakEvenDollars
    let netOperatingIncome := totals.totalContributionMargin - fixedCost
    let dol :=
      if netOperatingIncome ≠ 0 then
        ExtQ.fin (totals.totalContributionMargin / netOperatingIncome)
      else ExtQ.posInf
    some
      { cmPerUnit := cmPerUnit
        cmRatio := cmRatio
        vcRatio := vcRatio
        breakEvenUnits := breakEvenUnits
        breakEvenDollars := breakEvenDollars
        mosUnits := mosUnits
        mosDollars := mosDollars
        netOperatingIncome := netOperatingIncome
        dol := dol }
  else
    none

/-- Line 87: `max_units = int(total_quantity * 1.2) if total_quantity > 0
else 1`.  Python `int(...)` truncates toward zero; on the positive branch
the argument is positive, so truncation is the floor. -/
def maxUnits (totalQuantity : ℚ) : ℤ :=
  if 0 < totalQuantity then ⌊totalQuantity * (6 / 5 : ℚ)⌋ else 1

/-- Line 88: `max(1, int(max_units / 100))`.  For the nonnegative
`max_units` the script produces, truncating float division by 100 agrees
with integer division. -/
def chartStep (m : ℤ) : ℤ := max 1 (m / 100)

/-- Line 88: `units = range(0, max_units + 1, max(1, int(max_units / 100)))`,
i.e. the multiples `k * step` with `k * step ≤ max_units`. -/
def chartUnits (totalQuantity : ℚ) : List ℤ :=
  let m := maxUnits totalQuantity
  let s := chartStep m
  (List.range ((m / s).toNat + 1)).map (fun k : ℕ => (k : ℤ) * s)

/-- Line 90: `fixed_cost + (total_variable_cost / total_quantity) * u`. -/
def costLine (totals : PooledTotals) (fixedCost : ℚ) (u : ℤ) : ℚ :=
  fixedCost + totals.totalVariableCost / totals.totalQuantity * u

/-- Line 91: `(total_revenue / total_quantity) * u`. -/
def revenueLine (totals : PooledTotals) (u : ℤ) : ℚ :=
  totals.totalRevenue / totals.totalQuantity * u

/-- Lines 87-91: the sampled chart series, one
`(unit, totalCost, totalRevenue)` triple per sampled unit. -/
def chartSeries (totals : PooledTotals) (fixedCost : ℚ) : List (ℤ × ℚ × ℚ) :=
  (chartUnits totals.totalQuantity).map
    (fun u => (u, costLine totals fixedCost u, revenueLine totals u))

/-- The pooled average variable cost per unit,
`totals.totalVariableCost / totals.totalQuantity` (the blended rate of
lines 90 and 108). -/
def avgVariableRate (totals : PooledTotals) : ℚ :=
  totals.totalVariableCost / totals.totalQuantity

/-- Lines 108-109: the annotated break-even point
`(break_even_units, be_y)` with
`be_y = fixed_cost + (total_variable_cost / total_quantity) * break_even_units`,
computed in IEEE extended arithmetic since `break_even_units` may be the
infinity sentinel. -/
def breakEvenMarker (totals : PooledTotals) (fixedCost : ℚ) (breakEvenUnits : ExtQ) :
    ExtQ × ExtQ :=
  (breakEvenUnits,
   (ExtQ.fin fixedCost).add
     ((ExtQ.fin (totals.totalVariableCost / totals.totalQuantity)).mul breakEvenUnits))

/-- The break-even marker as the spec words it: the coordinate
`(breakEvenUnits, fixedCost + avgVariableRate * breakEvenUnits)`. -/
def breakEvenMarkerSpec (totals : PooledTotals) (fixedCost : ℚ) (breakEvenUnits : ExtQ) :
    ExtQ × ExtQ :=
  (breakEvenUnits,
   (ExtQ.fin fixedCost).add ((ExtQ.fin (avgVariableRate totals)).mul breakEvenUnits))

/-! ### Checked pipeline

The same computations with every division of the script replaced by
`checkedDiv`, which refuses a zero denominator.  A `none` result anywhere
means the script would have evaluated a division by zero. -/

/-- Division that signals a zero denominator instead of evaluating. -/
def checkedDiv (a b : ℚ) : Option ℚ := if b = 0 then none else some (a / b)

/-- Lines 56-65 with every division checked.  The outer `Option` is the
division-by-zero signal; the inner `Option` is the insufficient-data
outcome, as in `computeMetrics`. -/
def computeMetricsChecked (totals : PooledTotals) (fixedCost : ℚ) :
    Option (Option CVPMetrics) :=
  if 0 < totals.totalQuantity ∧ 0 < totals.totalRevenue then
    (checkedDiv totals.totalContributionMargin totals.totalQuantity).bind fun cmPerUnit =>
    (checkedDiv totals.totalContributionMargin totals.totalRevenue).bind fun cmRatio =>
    (checkedDiv totals.totalVariableCost totals.totalRevenue).bind fun vcRatio =>
    (if cmPerUnit ≠ 0 then (checkedDiv fixedCost cmPerUnit).map ExtQ.fin
     else some ExtQ.posInf).bind fun breakEvenUnits =>
    (if cmRatio ≠ 0 then (checkedDiv fixedCost cmRatio).map ExtQ.fin
     else some ExtQ.posInf).bind fun breakEvenDollars =>
    let mosUnits := (ExtQ.fin totals.totalQuantity).sub breakEvenUnits
    let mosDollars := (ExtQ.fin totals.totalRevenue).sub breakEvenDollars
    let netOperatingIncome := totals.totalContributionMargin - fixedCost
    (if netOperatingIncome ≠ 0 then
       (checkedDiv totals.totalContributionMargin netOperatingIncome).map ExtQ.fin
     else some ExtQ.posInf).bind fun dol =>
    some (some
      { cmPerUnit := cmPerUnit
        cmRatio := cmRatio
        vcRatio := vcRatio
        breakEvenUnits := breakEvenUnits
        breakEvenDollars := breakEvenDollars
        mosUnits := mosUnits
        mosDollars := mosDollars
        netOperatingIncome := netOperatingIncome
        dol := dol })
  else
    some none

/-- Line 90 with the division checked. -/
def costLineChecked (totals : PooledTotals) (fixedCost : ℚ) (u : ℤ) : Option ℚ :=
  (checkedDiv totals.totalVariableCost totals.totalQuantity).map (fun r => fixedCost + r * u)

/-- Line 91 with the division checked. -/
def revenueLineChecked (totals : PooledTotals) (u : ℤ) : Option ℚ :=
  (checkedDiv totals.totalRevenue totals.totalQuantity).map (fun r => r * u)

/-- Lines 87-91 with every division checked. -/
def chartSeriesChecked (totals : PooledTotals) (fixedCost : ℚ) :
    Option (List (ℤ × ℚ × ℚ)) :=
  (chartUnits totals.totalQuantity).mapM fun u =>
    (costLineChecked totals fixedCost u).bind fun c =>
    (revenueLineChecked totals u).map fun r => (u, c, r)

/-- Line 108 with the division checked. -/
def breakEvenMarkerChecked (totals : PooledTotals) (fixedCost : ℚ)
    (breakEvenUnits : ExtQ) : Option (ExtQ × ExtQ) :=
  (checkedDiv totals.totalVariableCost totals.totalQuantity).map fun r =>
    (breakEvenUnits, (ExtQ.fin fixedCost).add ((ExtQ.fin r).mul breakEvenUnits))

/-- The whole engine, lines 41-110, with every division checked: aggregate,
then the metrics, and on success the chart series and the break-even
marker.  `none` anywhere means a division by zero was attempted. -/
def pipelineChecked (products : List ProductRecord) (fixedCost : ℚ) :
    Option (List ProductSummary × PooledTotals ×
      Option (CVPMetrics × List (ℤ × ℚ × ℚ) × (ExtQ × ExtQ))) :=
  let agg := aggregate products
  (computeMetricsChecked agg.2 fixedCost).bind fun res =>
  match res with
  | none => some (agg.1, agg.2, none)
  | some m =>
    (chartSeriesChecked agg.2 fixedCost).bind fun series =>
    (breakEvenMarkerChecked agg.2 fixedCost m.breakEvenUnits).map fun marker =>
    (agg.1, agg.2, some (m, series, marker))

/-! ### Concrete sample inputs (used by witnesses) -/

/-- The product of spec scenario 1: price 10, variable cost 5, quantity 500. -/
def sampleProduct : ProductRecord :=
  { name := "A", sellingPrice := 10, variableCost := 5, quantitySold := 500 }

/-- A product with zero selling price (spec scenario 4). -/
def zeroPriceProduct : ProductRecord :=
  { name := "A", sellingPrice := 0, variableCost := 5, quantitySold := 100 }

/-- The pool of spec scenario 1: one product with price 10, variable cost 5,
quantity 500. -/
def samplePool : PooledTotals :=
  { totalRevenue := 5000, totalVariableCost := 2500,
    totalContributionMargin := 2500, totalQuantity := 500 }

/-- The metrics of spec scenario 1 at fixed cost 5000. -/
def sampleMetrics : CVPMetrics :=
  { cmPerUnit := 5, cmRatio := 1/2, vcRatio := 1/2,
    breakEvenUnits := .fin 1000, breakEvenDollars := .fin 10000,
    mosUnits := .fin (-500), mosDollars := .fin (-5000),
    netOperatingIncome := -2500, dol := .fin (-1) }

/-- A pool with zero contribution margin (price equals variable cost). -/
def zeroMarginPool : PooledTotals :=
  { totalRevenue := 50, totalVariableCost := 50,
    totalContributionMargin := 0, totalQuantity := 10 }

/-- The metrics of the zero-margin pool at fixed cost 7. -/
def zeroMarginMetrics : CVPMetrics :=
  { cmPerUnit := 0, cmRatio := 0, vcRatio := 1,
    breakEvenUnits := .posInf, breakEvenDollars := .posInf,
    mosUnits := .negInf, mosDollars := .negInf,
    netOperatingIncome := -7, dol := .fin 0 }

/-! ### Theorems -/

/-- The summary row keeps the input quantity unchanged. -/
theorem mkSummary_quantitySold (p : ProductRecord) :
    (mkSummary p).quantitySold = p.quantitySold := rfl

/-- The derived revenue column, line 44. -/
theorem mkSummary_totalRevenue (p : ProductRecord) :
    (mkSummary p).totalRevenue = p.sellingPrice * p.quantitySold := rfl

/-- The derived variable-cost column, line 45. -/
theorem mkSummary_totalVariableCost (p : ProductRecord) :
    (mkSummary p).totalVariableCost = p.variableCost * p.quantitySold := rfl

/-- The derived contribution-margin column, line 46. -/
theorem mkSummary_contributionMargin (p : ProductRecord) :
    (mkSummary p).contributionMargin =
      p.sellingPrice * p.quantitySold - p.variableCost * p.quantitySold := rfl

/-- Inversion: a successful `computeMetrics` run pins every metric field to
its defining formula from lines 57-65. -/
theorem computeMetrics_eq_some {totals : PooledTotals} {fixedCost : ℚ} {m : CVPMetrics}
    (hm : computeMetrics totals fixedCost = some m) :
    0 < totals.totalQuantity ∧ 0 < totals.totalRevenue ∧
    m.cmPerUnit = totals.totalContributionMargin / totals.totalQuantity ∧
    m.cmRatio = totals.totalContributionMargin / totals.totalRevenue ∧
    m.vcRatio = totals.totalVariableCost / totals.totalRevenue ∧
    m.breakEvenUnits =
      (if m.cmPerUnit ≠ 0 then ExtQ.fin (fixedCost / m.cmPerUnit) else ExtQ.posInf) ∧
    m.breakEvenDollars =
      (if m.cmRatio ≠ 0 then ExtQ.fin (fixedCost / m.cmRatio) else ExtQ.posInf) ∧
    m.netOperatingIncome = totals.totalContributionMargin - fixedCost ∧
    m.dol =
      (if m.netOperatingIncome ≠ 0 then
        ExtQ.fin (totals.totalContributionMargin / m.netOperatingIncome)
       else ExtQ.posInf) := by
  rw [computeMetrics] at hm
  split_ifs at hm with h
  simp only [Option.some.injEq] at hm
  subst hm
  exact ⟨h.1, h.2, rfl, rfl, rfl, rfl, rfl, rfl, rfl⟩

/-- Claim C1: `computeMetrics` produces a metrics value exactly when
`totals.totalQuantity > 0` and `totals.totalRevenue > 0`; whenever either
condition fails it returns the insufficient-data outcome (`none`) and no
metrics are computed. -/
theorem computeMetrics_success_iff (totals : PooledTotals) (fixedCost : ℚ) :
    ((∃ m, computeMetrics totals fixedCost = some m) ↔
      0 < totals.totalQuantity ∧ 0 < totals.totalRevenue) ∧
    (¬(0 < totals.totalQuantity ∧ 0 < totals.totalRevenue) →
      computeMetrics totals fixedCost = none) := by
  unfold computeMetrics
  split_ifs with h
  · exact ⟨⟨fun _ => h, fun _ => ⟨_, rfl⟩⟩, fun hc => absurd h hc⟩
  · exact ⟨⟨fun hm => absurd hm.choose_spec (by simp), fun hc => absurd hc h⟩, fun _ => rfl⟩

/-- Claim C1 witness: at a pool with positive quantity but zero revenue the
calculator returns the insufficient-data outcome. -/
theorem computeMetrics_success_iff_witness :
    computeMetrics
      { totalRevenue := 0, totalVariableCost := 500,
        totalContributionMargin := -500, totalQuantity := 100 } 5 = none :=
  (computeMetrics_success_iff _ 5).2 (by norm_num)

/-- Claim C3: `aggregate` keeps only records with positive quantity (every
summary row has `0 < quantitySold`); records with `quantitySold ≤ 0`
contribute nothing (dropping them first changes nothing); and when no
record has positive quantity the result is the empty summary list and
all-zero pooled totals. -/
theorem aggregate_filters_inactive (products : List ProductRecord) :
    (∀ s ∈ (aggregate products).1, 0 < s.quantitySold) ∧
    aggregate products =
      aggregate (products.filter (fun p => decide (0 < p.quantitySold))) ∧
    ((∀ p ∈ products, p.quantitySold ≤ 0) →
      aggregate products = ([],
        { totalRevenue := 0, totalVariableCost := 0,
          totalContributionMargin := 0, totalQuantity := 0 })) := by
  refine ⟨?_, ?_, ?_⟩
  · intro s hs
    simp only [aggregate, activeProducts, List.mem_map, List.mem_filter,
      decide_eq_true_eq] at hs
    obtain ⟨p, ⟨_, hq⟩, rfl⟩ := hs
    simpa [mkSummary] using hq
  · unfold aggregate activeProducts
    rw [List.filter_filter]
    simp
  · intro h
    have hnil : products.filter (fun p => decide (0 < p.quantitySold)) = [] :=
      List.filter_eq_nil_iff.mpr (fun p hp => by simp [not_lt.mpr (h p hp)])
    simp [aggregate, activeProducts, hnil]

/-- Claim C3 witness: a list whose only record has zero quantity aggregates
to the empty summary list and all-zero totals. -/
theorem aggregate_filters_inactive_witness :
    aggregate [{ name := "A", sellingPrice := 1, variableCost := 1, quantitySold := 0 }] =
      ([], { totalRevenue := 0, totalVariableCost := 0,
             totalContributionMargin := 0, totalQuantity := 0 }) :=
  (aggregate_filters_inactive _).2.2 (by simp)

/-- Claim C4: every pooled total is the sum of the corresponding per-product
value over exactly the records with positive quantity: revenue sums
`sellingPrice * quantitySold`, variable cost sums
`variableCost * quantitySold`, contribution margin sums their difference,
and quantity sums `quantitySold`; equivalently, each total is the sum of
the corresponding summary column. -/
theorem aggregate_additivity (products : List ProductRecord) :
    (aggregate products).2.totalRevenue =
      ((activeProducts products).map (fun p => p.sellingPrice * p.quantitySold)).sum ∧
    (aggregate products).2.totalVariableCost =
      ((activeProducts products).map (fun p => p.variableCost * p.quantitySold)).sum ∧
    (aggregate products).2.totalContributionMargin =
      ((activeProducts products).map
        (fun p => p.sellingPrice * p.quantitySold - p.variableCost * p.quantitySold)).sum ∧
    (aggregate products).2.totalQuantity =
      ((activeProducts products).map (fun p => p.quantitySold)).sum ∧
    activeProducts products = products.filter (fun p => decide (0 < p.quantitySold)) ∧
    (aggregate products).2.totalRevenue =
      ((aggregate products).1.map (fun s => s.totalRevenue)).sum ∧
    (aggregate products).2.totalVariableCost =
      ((aggregate products).1.map (fun s => s.totalVariableCost)).sum ∧
    (aggregate products).2.totalContributionMargin =
      ((aggregate products).1.map (fun s => s.contributionMargin)).sum ∧
    (aggregate products).2.totalQuantity =
      ((aggregate products).1.map (fun s => s.quantitySold)).sum := by
  refine ⟨?_, ?_, ?_, ?_, rfl, rfl, rfl, rfl, rfl⟩ <;>
    simp [aggregate, List.map_map, Function.comp_def, mkSummary_totalRevenue,
      mkSummary_totalVariableCost, mkSummary_contributionMargin, mkSummary_quantitySold]

/-- Scenario 1 evaluated: shared by several witnesses. -/
theorem computeMetrics_samplePool :
    computeMetrics samplePool 5000 = some sampleMetrics := by
  norm_num [computeMetrics, samplePool, sampleMetrics, ExtQ.sub, ExtQ.add, ExtQ.neg]

/-- The zero-margin pool evaluated. -/
theorem computeMetrics_zeroMarginPool :
    computeMetrics zeroMarginPool 7 = some zeroMarginMetrics := by
  norm_num [computeMetrics, zeroMarginPool, zeroMarginMetrics, ExtQ.sub, ExtQ.add, ExtQ.neg]

/-- Claim C2: under the success precondition, a zero `cmPerUnit` makes
`breakEvenUnits` the positive-infinity sentinel, a zero `cmRatio` makes
`breakEvenDollars` positive infinity, and a zero `netOperatingIncome`
makes `degreeOfOperatingLeverage` positive infinity; in each case a defined
value is returned, never an error. -/
theorem infinity_sentinels (totals : PooledTotals) (fixedCost : ℚ) (m : CVPMetrics)
    (hm : computeMetrics totals fixedCost = some m) :
    (m.cmPerUnit = 0 → m.breakEvenUnits = ExtQ.posInf) ∧
    (m.cmRatio = 0 → m.breakEvenDollars = ExtQ.posInf) ∧
    (m.netOperatingIncome = 0 → m.dol = ExtQ.posInf) := by
  obtain ⟨-, -, -, -, -, hbeu, hbed, -, hdol⟩ := computeMetrics_eq_some hm
  refine ⟨fun h => ?_, fun h => ?_, fun h => ?_⟩
  · rw [hbeu, if_neg (by simp [h])]
  · rw [hbed, if_neg (by simp [h])]
  · rw [hdol, if_neg (by simp [h])]

/-- Claim C2 witness: the zero-margin pool satisfies the precondition, its
`cmPerUnit` and `cmRatio` are zero, and both break-even metrics are the
positive-infinity sentinel. -/
theorem infinity_sentinels_witness :
    computeMetrics zeroMarginPool 7 = some zeroMarginMetrics ∧
    zeroMarginMetrics.breakEvenUnits = ExtQ.posInf ∧
    zeroMarginMetrics.breakEvenDollars = ExtQ.posInf :=
  ⟨computeMetrics_zeroMarginPool,
   (infinity_sentinels _ _ _ computeMetrics_zeroMarginPool).1 rfl,
   (infinity_sentinels _ _ _ computeMetrics_zeroMarginPool).2.1 rfl⟩

/-- Claim C5: under the success precondition with nonzero `cmPerUnit`,
`breakEvenUnits` is the finite value `fixedCost / cmPerUnit`, and
multiplying it back by `cmPerUnit` recovers `fixedCost` exactly. -/
theorem break_even_round_trip (totals : PooledTotals) (fixedCost : ℚ) (m : CVPMetrics)
    (hm : computeMetrics totals fixedCost = some m) (hcm : m.cmPerUnit ≠ 0) :
    m.breakEvenUnits = ExtQ.fin (fixedCost / m.cmPerUnit) ∧
    m.cmPerUnit * (fixedCost / m.cmPerUnit) = fixedCost := by
  obtain ⟨-, -, -, -, -, hbeu, -, -, -⟩ := computeMetrics_eq_some hm
  rw [if_pos hcm] at hbeu
  exact ⟨hbeu, (mul_comm _ _).trans (div_mul_cancel₀ fixedCost hcm)⟩

/-- Claim C5 witness: scenario 1 has `cmPerUnit = 5`, break-even at
`5000 / 5 = 1000` units, and `5 * 1000 = 5000` recovers the fixed cost. -/
theorem break_even_round_trip_witness :
    computeMetrics samplePool 5000 = some sampleMetrics ∧
    sampleMetrics.cmPerUnit ≠ 0 ∧
    sampleMetrics.breakEvenUnits = ExtQ.fin (5000 / sampleMetrics.cmPerUnit) ∧
    sampleMetrics.cmPerUnit * (5000 / sampleMetrics.cmPerUnit) = 5000 := by
  have h := break_even_round_trip _ 5000 _ computeMetrics_samplePool
    (by norm_num [sampleMetrics])
  exact ⟨computeMetrics_samplePool, by norm_num [sampleMetrics], h.1, h.2⟩

/-- Claim C7: every sampled chart entry carries
`totalCost = fixedCost + (totalVariableCost / totalQuantity) * unit` and
`totalRevenue = (totalRevenue / totalQuantity) * unit`; at unit 0 the cost
line is exactly `fixedCost` and the revenue line is exactly 0. -/
theorem chart_lines (totals : PooledTotals) (fixedCost : ℚ) :
    (∀ e ∈ chartSeries totals fixedCost,
      e.2.1 = fixedCost + totals.totalVariableCost / totals.totalQuantity * e.1 ∧
      e.2.2 = totals.totalRevenue / totals.totalQuantity * e.1) ∧
    costLine totals fixedCost 0 = fixedCost ∧
    revenueLine totals 0 = 0 := by
  refine ⟨?_, by simp [costLine], by simp [revenueLine]⟩
  intro e he
  simp only [chartSeries, List.mem_map] at he
  obtain ⟨u, -, rfl⟩ := he
  exact ⟨rfl, rfl⟩

/-- Claim C7 witness: at scenario 1 the cost line starts exactly at the
fixed cost 5000 and the revenue line starts exactly at 0. -/
theorem chart_lines_witness :
    costLine samplePool 5000 0 = 5000 ∧ revenueLine samplePool 0 = 0 :=
  ⟨(chart_lines samplePool 5000).2.1, (chart_lines samplePool 5000).2.2⟩

/-- Claim C8: the break-even marker of lines 108-109 is exactly the
coordinate `(breakEvenUnits, fixedCost + avgVariableRate * breakEvenUnits)`
of the spec; when `breakEvenUnits` is the finite value `b` the marker is
the finite pair `(b, fixedCost + avgVariableRate * b)`. -/
theorem break_even_marker_eq_spec (totals : PooledTotals) (fixedCost : ℚ) (m : CVPMetrics)
    (_hm : computeMetrics totals fixedCost = some m) :
    breakEvenMarker totals fixedCost m.breakEvenUnits =
      breakEvenMarkerSpec totals fixedCost m.breakEvenUnits ∧
    (∀ b : ℚ, m.breakEvenUnits = ExtQ.fin b →
      breakEvenMarker totals fixedCost m.breakEvenUnits =
        (ExtQ.fin b, ExtQ.fin (fixedCost + avgVariableRate totals * b))) := by
  refine ⟨rfl, fun b hb => ?_⟩
  rw [hb]
  simp [breakEvenMarker, avgVariableRate, ExtQ.add, ExtQ.mul]

/-- Claim C8 witness: at scenario 1 the marker is
`(1000, 5000 + 5 * 1000) = (1000, 10000)`. -/
theorem break_even_marker_eq_spec_witness :
    breakEvenMarker samplePool 5000 sampleMetrics.breakEvenUnits =
      (ExtQ.fin 1000, ExtQ.fin 10000) := by
  have h := (break_even_marker_eq_spec _ 5000 _ computeMetrics_samplePool).2 1000 rfl
  rw [h]
  norm_num [avgVariableRate, samplePool]

/-- Claim C6 counterexample: at `totalQuantity = 1` the code truncates
`1 * 1.2` to `max_units = 1`, so the sampled units are `[0, 1]` and the
ceiling bound `⌈1 * 1.2⌉ = 2` is not reached: the domain does not range up
to the ceiling inclusive.  (Likewise, at `totalQuantity = 0` the fallback
yields `max_units = 1`, hence samples `[0, 1]`, not a single point.) -/
theorem chart_domain_ceil_counterexample :
    (0:ℚ) < 1 ∧ ⌈(1:ℚ) * (6/5)⌉ = 2 ∧ chartUnits 1 = [0, 1] ∧
    (2:ℤ) ∉ chartUnits 1 ∧ chartUnits 0 = [0, 1] := by
  have hfl : ⌊(1:ℚ) * (6/5)⌋ = 1 := by rw [Int.floor_eq_iff]; norm_num
  have hcl : ⌈(1:ℚ) * (6/5)⌉ = 2 := by rw [Int.ceil_eq_iff]; norm_num
  have hu : chartUnits 1 = [0, 1] := by
    norm_num [chartUnits, maxUnits, chartStep, hfl, List.range_succ]
  have hu0 : chartUnits 0 = [0, 1] := by
    norm_num [chartUnits, maxUnits, chartStep, List.range_succ]
  exact ⟨by norm_num, hcl, hu, by rw [hu]; decide, hu0⟩

/-- Claim C6 amended: for positive `totalQuantity` the chart-domain bound is
the truncation `⌊totalQuantity * 1.2⌋` (not the ceiling); the sampled units
start at 0, stay within `[0, maxUnits]`, and reach within one step of
`maxUnits`; and at `totalQuantity = 0` the fallback bound is 1, so the
domain is the two points `[0, 1]` (that branch is unreachable, since the
chart is only drawn when `totalQuantity > 0`). -/
theorem chart_domain_floor (tq : ℚ) (htq : 0 < tq) :
    maxUnits tq = ⌊tq * (6/5 : ℚ)⌋ ∧
    0 ∈ chartUnits tq ∧
    (∀ u ∈ chartUnits tq, 0 ≤ u ∧ u ≤ maxUnits tq) ∧
    (∃ u ∈ chartUnits tq, maxUnits tq - chartStep (maxUnits tq) < u) ∧
    chartUnits 0 = [0, 1] := by
  have hm : maxUnits tq = ⌊tq * (6/5:ℚ)⌋ := by rw [maxUnits, if_pos htq]
  have hm0 : 0 ≤ maxUnits tq := by
    rw [hm]
    exact Int.floor_nonneg.mpr (by positivity)
  have hs1 : 1 ≤ chartStep (maxUnits tq) := le_max_left _ _
  have hdiv0 : 0 ≤ maxUnits tq / chartStep (maxUnits tq) :=
    Int.ediv_nonneg hm0 (by omega)
  have hre : chartUnits tq =
      (List.range ((maxUnits tq / chartStep (maxUnits tq)).toNat + 1)).map
        (fun k : ℕ => (k:ℤ) * chartStep (maxUnits tq)) := rfl
  refine ⟨hm, ?_, ?_, ?_, ?_⟩
  · rw [hre]
    exact List.mem_map.mpr ⟨0, List.mem_range.mpr (Nat.succ_pos _), by simp⟩
  · intro u hu
    rw [hre] at hu
    obtain ⟨k, hk, rfl⟩ := List.mem_map.mp hu
    have hk2 : (k:ℤ) ≤ maxUnits tq / chartStep (maxUnits tq) := by
      have hk3 : k ≤ (maxUnits tq / chartStep (maxUnits tq)).toNat :=
        Nat.lt_succ_iff.mp (List.mem_range.mp hk)
      calc (k:ℤ) ≤ ((maxUnits tq / chartStep (maxUnits tq)).toNat : ℤ) := by exact_mod_cast hk3
        _ = maxUnits tq / chartStep (maxUnits tq) := Int.toNat_of_nonneg hdiv0
    refine ⟨mul_nonneg (Int.natCast_nonneg k) (by omega), ?_⟩
    calc (k:ℤ) * chartStep (maxUnits tq)
        ≤ (maxUnits tq / chartStep (maxUnits tq)) * chartStep (maxUnits tq) :=
          mul_le_mul_of_nonneg_right hk2 (by omega)
      _ ≤ maxUnits tq := Int.ediv_mul_le _ (by omega)
  · refine ⟨((maxUnits tq / chartStep (maxUnits tq)).toNat : ℤ) * chartStep (maxUnits tq),
      ?_, ?_⟩
    · rw [hre]
      exact List.mem_map.mpr
        ⟨(maxUnits tq / chartStep (maxUnits tq)).toNat,
         List.mem_range.mpr (Nat.lt_succ_self _), rfl⟩
    · rw [Int.toNat_of_nonneg hdiv0]
      have hmod := Int.emod_lt_of_pos (maxUnits tq)
        (show (0:ℤ) < chartStep (maxUnits tq) by omega)
      have hdm := Int.ediv_add_emod (maxUnits tq) (chartStep (maxUnits tq))
      rw [mul_comm]
      omega
  · norm_num [chartUnits, maxUnits, chartStep, List.range_succ]

/-- Claim C6 (amended) witness: at `totalQuantity = 5` the bound is
`⌊6⌋ = 6` and unit 0 is sampled. -/
theorem chart_domain_floor_witness :
    (0:ℚ) < 5 ∧ maxUnits 5 = 6 ∧ 0 ∈ chartUnits 5 := by
  have h := chart_domain_floor 5 (by norm_num)
  have h6 : ⌊(5:ℚ) * (6/5)⌋ = 6 := by
    rw [show (5 * (6/5:ℚ)) = ((6:ℤ):ℚ) by norm_num, Int.floor_intCast]
  exact ⟨by norm_num, h.1.trans h6, h.2.1⟩

/-- The checked calculator never signals a division by zero and agrees with
`computeMetrics`. -/
theorem computeMetricsChecked_eq (totals : PooledTotals) (fixedCost : ℚ) :
    computeMetricsChecked totals fixedCost = some (computeMetrics totals fixedCost) := by
  unfold computeMetricsChecked computeMetrics
  split_ifs with h
  · simp only [checkedDiv, if_neg h.1.ne', if_neg h.2.ne', Option.bind_eq_bind,
      Option.some_bind]
    split_ifs <;> simp_all [checkedDiv]
  · rfl

/-- `mapM` over `Option` collapses to `map` when the function never fails. -/
theorem mapM_eq_some_map {α β : Type} (f : α → Option β) (g : α → β)
    (h : ∀ a, f a = some (g a)) : ∀ l : List α, l.mapM f = some (l.map g)
  | [] => rfl
  | a :: l => by
    rw [List.mapM_cons, h a, mapM_eq_some_map f g h l]
    rfl

/-- With a nonzero pooled quantity the checked chart series never signals a
division by zero and agrees with `chartSeries`. -/
theorem chartSeriesChecked_eq (totals : PooledTotals) (fixedCost : ℚ)
    (h : totals.totalQuantity ≠ 0) :
    chartSeriesChecked totals fixedCost = some (chartSeries totals fixedCost) := by
  unfold chartSeriesChecked chartSeries
  exact mapM_eq_some_map _ _
    (fun u => by simp [costLineChecked, revenueLineChecked, checkedDiv, h, costLine,
      revenueLine]) _

/-- With a nonzero pooled quantity the checked break-even marker never
signals a division by zero and agrees with `breakEvenMarker`. -/
theorem breakEvenMarkerChecked_eq (totals : PooledTotals) (fixedCost : ℚ) (beu : ExtQ)
    (h : totals.totalQuantity ≠ 0) :
    breakEvenMarkerChecked totals fixedCost beu =
      some (breakEvenMarker totals fixedCost beu) := by
  simp [breakEvenMarkerChecked, breakEvenMarker, checkedDiv, h]

/-- Claim C9: with every division of the engine replaced by a checked
division, the whole pipeline still produces a value on every non-negative
input — every division by `totalQuantity` or `totalRevenue` sits inside the
positivity branch and every other division is guarded by a nonzero test, so
no division by zero is ever evaluated. -/
theorem no_division_by_zero (products : List ProductRecord) (fixedCost : ℚ)
    (_hp : ∀ p ∈ products, 0 ≤ p.sellingPrice ∧ 0 ≤ p.variableCost ∧ 0 ≤ p.quantitySold)
    (_hfc : 0 ≤ fixedCost) :
    (pipelineChecked products fixedCost).isSome = true := by
  simp only [pipelineChecked]
  rw [computeMetricsChecked_eq]
  rcases hcase : computeMetrics (aggregate products).2 fixedCost with _ | m
  · simp
  · have hpre := (computeMetrics_eq_some hcase).1
    simp only [Option.some_bind]
    rw [chartSeriesChecked_eq _ _ hpre.ne', breakEvenMarkerChecked_eq _ _ _ hpre.ne']
    simp

/-- Claim C9 witness: the checked pipeline succeeds on spec scenario 1. -/
theorem no_division_by_zero_witness :
    (pipelineChecked [sampleProduct] 5000).isSome = true :=
  no_division_by_zero _ 5000 (by norm_num [sampleProduct]) (by norm_num)

/-- Claim C10: a non-empty active set forces `totalQuantity > 0` (each kept
record has positive quantity), so with non-negative inputs the
insufficient-data outcome can only come from `totalRevenue = 0`, never from
`totalQuantity = 0`. -/
theorem nonempty_active_positive_quantity (products : List ProductRecord) (fixedCost : ℚ)
    (hne : (aggregate products).1 ≠ []) :
    0 < (aggregate products).2.totalQuantity ∧
    ((∀ p ∈ products, 0 ≤ p.sellingPrice ∧ 0 ≤ p.quantitySold) →
      computeMetrics (aggregate products).2 fixedCost = none →
      (aggregate products).2.totalRevenue = 0) := by
  have hq : 0 < (aggregate products).2.totalQuantity := by
    apply List.sum_pos
    · intro x hx
      obtain ⟨s, hs, rfl⟩ := List.mem_map.mp hx
      obtain ⟨p, hp, rfl⟩ := List.mem_map.mp hs
      have := List.mem_filter.mp hp
      simpa [mkSummary_quantitySold] using of_decide_eq_true this.2
    · intro hnil
      exact hne (by simpa [aggregate] using List.map_eq_nil_iff.mp hnil)
  refine ⟨hq, fun hnn hnone => ?_⟩
  have htr : 0 ≤ (aggregate products).2.totalRevenue := by
    apply List.sum_nonneg
    intro x hx
    obtain ⟨s, hs, rfl⟩ := List.mem_map.mp hx
    obtain ⟨p, hp, rfl⟩ := List.mem_map.mp hs
    have hmem := (List.mem_filter.mp hp).1
    rw [mkSummary_totalRevenue]
    exact mul_nonneg (hnn p hmem).1 (hnn p hmem).2
  have hcond : ¬(0 < (aggregate products).2.totalQuantity ∧
      0 < (aggregate products).2.totalRevenue) := by
    intro hc
    rw [computeMetrics, if_pos hc] at hnone
    cases hnone
  push_neg at hcond
  exact le_antisymm (hcond hq) htr

/-- Claim C10 witness: one active product with zero price keeps the active
set non-empty, the pooled quantity positive, and the pooled revenue zero. -/
theorem nonempty_active_positive_quantity_witness :
    (aggregate [zeroPriceProduct]).1 ≠ [] ∧
    0 < (aggregate [zeroPriceProduct]).2.totalQuantity ∧
    (aggregate [zeroPriceProduct]).2.totalRevenue = 0 := by
  have hne : (aggregate [zeroPriceProduct]).1 ≠ [] := by
    norm_num [aggregate, activeProducts, zeroPriceProduct, List.filter]
  have h := nonempty_active_positive_quantity _ 5 hne
  refine ⟨hne, h.1, h.2 (by norm_num [zeroPriceProduct]) ?_⟩
  norm_num [computeMetrics, aggregate, activeProducts, mkSummary, zeroPriceProduct,
    List.filter]

end CVP
